import Mathlib

/-!
Verification of the `StreamFeed` class of `src/src/feed.ts` (a client for a
hosted activity-feed service).  JavaScript objects used as query-parameter
maps and as request bodies are embedded as association lists over a small
value type; JavaScript strings are Lean `String`s; optional parameters are
`Option`s; functions that `throw` synchronously are embedded as
`Except`-valued functions.  External collaborators that are not part of the
repository snapshot (the `utils` validators, the `errors` classes, the
`client` enrichment helpers and the faye realtime transport) are modelled
from the specification, each with a doc comment saying so.
-/

/-- Value stored under one key of a JavaScript query/options object, as the
typings of `feed.ts` allow them: booleans, strings, numbers and arrays of
strings. -/
inductive QVal where
  | bool (b : Bool)
  | str (s : String)
  | num (n : Int)
  | strList (l : List String)
deriving DecidableEq, Repr

/-- A JavaScript object used as a flat query/options map: an association
list from key to value.  Lookup takes the first binding, so operations that
overwrite a key must place the new binding in front of (or remove) the old
one; all properties are stated through the lookup function `qget`, which
matches the extensional behaviour of JavaScript objects. -/
abbrev Query := List (String × QVal)

/-- Lookup of a key in an embedded JavaScript object (first binding wins). -/
def qget : Query → String → Option QVal
  | [], _ => none
  | (k, v) :: rest, key => if k = key then some v else qget rest key

/-- JavaScript spread of two objects, written there as an object literal
spreading `a` and then `b`: bindings of `b` win over bindings of `a`. -/
def spread2 (a b : Query) : Query := b ++ a

/-- Left-biased choice on optional values, used to state what a spread
does to lookups. -/
def oor {α : Type} : Option α → Option α → Option α
  | some v, _ => some v
  | none, b => b

/-- Modelled from the spec: the character set accepted by the `utils`
validators (utils.ts is not under src/).  The spec allows alphanumerics and
limited punctuation and excludes the colon; modelled as alphanumerics,
underscore and hyphen. -/
def allowedIdChar (c : Char) : Bool :=
  c.isAlphanum || c = '_' || c = '-'

/-- Modelled from the spec: `utils.validateFeedSlug` (utils.ts is not under
src/) fails when the slug is empty or contains a character outside the
allowed set. -/
def validateFeedSlug (s : String) : Bool :=
  decide (s ≠ "") && s.data.all allowedIdChar

/-- Modelled from the spec: `utils.validateUserId` (utils.ts is not under
src/), same empty/charset rule as `validateFeedSlug`. -/
def validateUserId (s : String) : Bool :=
  decide (s ≠ "") && s.data.all allowedIdChar

/-- Modelled from the spec: the error classes of errors.ts (not under src/)
together with the plain JavaScript `Error`.  `FeedError` is what the spec
calls `ValidationError`, `SiteError` is what the spec calls `ConfigError`;
`jsError` embeds a synchronously thrown plain `Error`. -/
inductive StreamError where
  | FeedError (msg : String)
  | SiteError (msg : String)
  | jsError (msg : String)
deriving DecidableEq, Repr

/-- The spec's `ValidationError` taxonomy: every synchronously raised local
validation failure that is not the configuration error `SiteError`. -/
def StreamError.isValidationError : StreamError → Bool
  | .SiteError _ => false
  | _ => true

/-- Whether an embedded fallible operation succeeded. -/
def exIsOk {ε α : Type} : Except ε α → Bool
  | .ok _ => true
  | .error _ => false

/-- JavaScript `String.prototype.replace` with a single-character pattern
replaces only the first occurrence of the pattern; this is the list-level
worker. -/
def jsReplaceOnce (pat : Char) (rep : List Char) : List Char → List Char
  | [] => []
  | c :: cs => if c = pat then rep ++ cs else c :: jsReplaceOnce pat rep cs

/-- JavaScript `s.replace(pat, rep)` for a one-character string pattern
`pat`: only the first occurrence is replaced. -/
def jsStringReplaceFirst (s : String) (pat : Char) (rep : String) : String :=
  String.mk (jsReplaceOnce pat rep.data s.data)

/-- Rendering of `client.appId` inside a template literal: an absent
(`undefined`) app id is coerced to the string "undefined". -/
def appIdString : Option String → String
  | some a => a
  | none => "undefined"

/-- The `StreamFeed` object of feed.ts after a successful construction.
`appId` stands for the `client.appId` reference the feed keeps through
`this.client`; the remaining fields are the instance fields assigned by the
constructor. -/
structure StreamFeed where
  appId : Option String
  slug : String
  userId : String
  id : String
  token : String
  feedUrl : String
  feedTogether : String
  signature : String
  notificationChannel : String
deriving DecidableEq, Repr

namespace StreamFeed

/-- The `StreamFeed` constructor (feed.ts lines 212-251): validates the
slug, user id and token, then derives `id`, `feedUrl`, `feedTogether`,
`signature` and `notificationChannel`.  A JavaScript `throw` is an
`Except.error`; the falsiness tests on the string arguments are equality
with the empty string, and the `indexOf` test for a colon in the slug is
`List.any` over the characters. -/
def construct (appId : Option String) (feedSlug userId token : String) :
    Except StreamError StreamFeed :=
  if feedSlug = "" ∨ userId = "" then
    .error (.FeedError "Please provide a feed slug and user id, ie client.feed(user, 1)")
  else if feedSlug.data.any (fun c => c == ':') then
    .error (.FeedError "Please initialize the feed using client.feed(user, 1) not client.feed(user:1)")
  else if !validateFeedSlug feedSlug then
    .error (.FeedError "Invalid feed slug")
  else if !validateUserId userId then
    .error (.FeedError "Invalid user id")
  else if token = "" then
    .error (.FeedError "Missing token, in client side mode please provide a feed secret")
  else
    let id := feedSlug ++ ":" ++ userId
    let feedTogether := jsStringReplaceFirst id ':' ""
    .ok
      { appId := appId
        slug := feedSlug
        userId := userId
        id := id
        token := token
        feedUrl := jsStringReplaceFirst id ':' "/"
        feedTogether := feedTogether
        signature := feedTogether ++ " " ++ token
        notificationChannel := "site-" ++ appIdString appId ++ "-feed-" ++ feedTogether }

end StreamFeed

/-- A request descriptor handed to `client.get` / `client.delete`: relative
url, flat query-parameter object and the feed signature. -/
structure QsRequest where
  url : String
  qs : Query
  signature : String
deriving DecidableEq, Repr

/-- The polymorphic argument of `removeActivity`: either a literal activity
id (a string) or an object carrying a `foreignId` field. -/
inductive ActivityRef where
  | id (s : String)
  | foreignId (fid : String)
deriving DecidableEq, Repr

/-- The polymorphic `targetUserId` argument of `follow`: either a plain id
string or a `StreamUser` instance, of which only the `id` field is used. -/
inductive TargetUserRef where
  | plain (s : String)
  | user (id : String)
deriving DecidableEq, Repr

/-- The extraction `if (targetUserId instanceof StreamUser) targetUserId =
targetUserId.id` performed at the top of `follow`. -/
def resolveTargetUserId : TargetUserRef → String
  | .plain s => s
  | .user i => i

/-- The body `follow` posts: always a `target`, plus `activity_copy_limit`
exactly when the caller passed a numeric `limit`. -/
structure FollowBody where
  target : String
  activity_copy_limit : Option Int
deriving DecidableEq, Repr

/-- A request descriptor handed to `client.post` by `follow`. -/
structure FollowRequest where
  url : String
  body : FollowBody
  signature : String
deriving DecidableEq, Repr

/-- The body `updateActivityToTargets` posts; each of the three target
lists is present exactly when the caller supplied it. -/
structure UpdateToTargetsBody where
  foreign_id : String
  time : String
  new_targets : Option (List String)
  added_targets : Option (List String)
  removed_targets : Option (List String)
deriving DecidableEq, Repr

/-- A request descriptor handed to `client.post` by
`updateActivityToTargets`. -/
structure TargetsRequest where
  url : String
  signature : String
  body : UpdateToTargetsBody
deriving DecidableEq, Repr

/-- An entry of `client.subscriptions`, keyed by channel name.  The faye
subscription handle (an opaque object of the external realtime transport)
is modelled as a natural number allocated freshly per `subscribe` call.
Note that feed.ts stores the notification channel name in the `userId`
field of the entry. -/
structure SubscriptionEntry where
  token : String
  userId : String
  fayeSubscription : Nat
deriving DecidableEq, Repr

/-- Modelled from the spec: the mutable state the subscription operations
touch.  `subscriptions` is the process-wide `client.subscriptions` registry
(a JavaScript object, embedded as an association list with unique keys);
`nextHandle` models the external faye client handing out a fresh cancellable
subscription handle on every `subscribe` call (faye is not under src/);
`cancelled` records the handles whose `cancel()` has been invoked. -/
structure ClientState where
  subscriptions : List (String × SubscriptionEntry)
  nextHandle : Nat
  cancelled : List Nat
deriving DecidableEq, Repr

/-- Lookup in an association-list embedding of a JavaScript object. -/
def alistGet {α : Type} : List (String × α) → String → Option α
  | [], _ => none
  | (k, v) :: rest, key => if k = key then some v else alistGet rest key

/-- Keyed assignment on a JavaScript object: the key ends up bound exactly
once, to the new value. -/
def alistSet {α : Type} (l : List (String × α)) (key : String) (v : α) :
    List (String × α) :=
  (key, v) :: l.filter (fun p => p.1 != key)

/-- The JavaScript `delete obj[key]` operation. -/
def alistDel {α : Type} (l : List (String × α)) (key : String) :
    List (String × α) :=
  l.filter (fun p => p.1 != key)

/-- JavaScript `Array.prototype.join` with a comma separator. -/
def joinComma (l : List String) : String := String.intercalate "," l

/-- The conditional `mark_read` binding of the `extraOptions` object built
at the top of `get` (feed.ts lines 419-421): when `mark_read` is truthy and
has a `join` method (i.e. is an array), it is re-bound to the comma-joined
string.  Booleans and strings have no `join` and produce no override. -/
def markReadOverride (options : Query) : Query :=
  match qget options "mark_read" with
  | some (.strList l) => [("mark_read", .str (joinComma l))]
  | _ => []

/-- The conditional `mark_seen` binding of `extraOptions` (feed.ts lines
423-425), same rule as `markReadOverride`. -/
def markSeenOverride (options : Query) : Query :=
  match qget options "mark_seen" with
  | some (.strList l) => [("mark_seen", .str (joinComma l))]
  | _ => []

/-- The whole `extraOptions` object of `get` (feed.ts lines 417-425). -/
def markOverrides (options : Query) : Query :=
  markReadOverride options ++ markSeenOverride options

/-- Modelled from the spec: `client.replaceReactionOptions` (client.ts is
not under src/) rewrites enrichment options in place; the spec states the
core passes the options object through untouched for that collaborator, so
its effect on the keys reasoned about here is the identity. -/
def replaceReactionOptions (options : Query) : Query := options

/-- The enrichment option names of the `EnrichOptions` type. -/
def enrichKeys : List String :=
  ["enrich", "ownReactions", "reactionKindsFilter", "recentReactionsLimit",
   "withOwnChildren", "withOwnReactions", "withReactionCounts", "withRecentReactions"]

/-- Modelled from the spec: `client.shouldUseEnrichEndpoint` (client.ts is
not under src/), the predicate deciding whether the enrichment endpoint
variant is used; modelled as: some enrichment option is present. -/
def shouldUseEnrichEndpoint (options : Query) : Bool :=
  enrichKeys.any (fun k => (qget options k).isSome)

namespace StreamFeed

/-- `removeActivity` (feed.ts lines 274-289).  The url segment is the
JavaScript expression `activityId.foreignId || activityId` coerced into a
template literal: for a string argument the property access yields
`undefined` and the string itself is used; for an object argument with a
truthy `foreignId` that field is used; for an object with an empty (falsy)
`foreignId` the whole object is used and stringifies to "[object Object]".
The `foreign_id` query flag is set exactly when `foreignId` is truthy. -/
def removeActivity (f : StreamFeed) (activityId : ActivityRef) : QsRequest :=
  match activityId with
  | .id s =>
      { url := "feed/" ++ f.feedUrl ++ "/" ++ s ++ "/"
        qs := []
        signature := f.signature }
  | .foreignId fid =>
      if fid = "" then
        { url := "feed/" ++ f.feedUrl ++ "/" ++ "[object Object]" ++ "/"
          qs := []
          signature := f.signature }
      else
        { url := "feed/" ++ f.feedUrl ++ "/" ++ fid ++ "/"
          qs := [("foreign_id", .str "1")]
          signature := f.signature }

/-- `follow` (feed.ts lines 306-334): resolve a `StreamUser` argument to
its id, validate both target components, then post a body with `target`
and, exactly when `options.limit` is a number, `activity_copy_limit`. -/
def follow (f : StreamFeed) (targetSlug : String) (targetUserId : TargetUserRef)
    (limit : Option Int) : Except StreamError FollowRequest :=
  let uid := resolveTargetUserId targetUserId
  if !validateFeedSlug targetSlug then
    .error (.FeedError "Invalid feed slug")
  else if !validateUserId uid then
    .error (.FeedError "Invalid user id")
  else
    .ok
      { url := "feed/" ++ f.feedUrl ++ "/following/"
        body := { target := targetSlug ++ ":" ++ uid, activity_copy_limit := limit }
        signature := f.signature }

/-- `get` (feed.ts lines 406-436): build the marking overrides, let the
client rewrite enrichment options, choose the plain or enrichment endpoint,
and transmit the spread of the options with the overrides. -/
def get (f : StreamFeed) (options : Query) : QsRequest :=
  let extraOptions := markOverrides options
  let options' := replaceReactionOptions options
  let path := if shouldUseEnrichEndpoint options' then "enrich/feed/" else "feed/"
  { url := path ++ f.feedUrl ++ "/"
    qs := spread2 options' extraOptions
    signature := f.signature }

/-- `getActivityDetail` (feed.ts lines 438-457): calls `get` on the object
literal binding `id_lte`, `id_gte` and `limit` and then spreading the
caller's options over them. -/
def getActivityDetail (f : StreamFeed) (activityId : String) (options : Query) :
    QsRequest :=
  get f (spread2
    [("id_lte", .str activityId), ("id_gte", .str activityId), ("limit", .num 1)]
    options)

/-- Follows the spec's words, for comparison with `getActivityDetail`: the
options obtained by merging id_lte = id_gte = activityId and limit = 1 with
the caller's options (the caller's options taking precedence where both
bind a key). -/
def specDetailOptions (activityId : String) (options : Query) : Query :=
  spread2
    [("id_lte", .str activityId), ("id_gte", .str activityId), ("limit", .num 1)]
    options

/-- The overlap scan of `updateActivityToTargets` (feed.ts lines 542-549):
when both lists were supplied, the `forEach`/`includes` loop finds whether
some added target is also a removed target. -/
def overlapCheck (addedTargets removedTargets : Option (List String)) : Bool :=
  match addedTargets, removedTargets with
  | some a, some r => a.any (fun t => r.contains t)
  | _, _ => false

/-- `updateActivityToTargets` (feed.ts lines 510-567): the local validation
chain followed by the construction of the posted body.  Plain `throw new
Error` is `StreamError.jsError`; the absence of an optional array argument
is `Option.none`. -/
def updateActivityToTargets (f : StreamFeed) (foreignId time : String)
    (newTargets addedTargets removedTargets : Option (List String)) :
    Except StreamError TargetsRequest :=
  if foreignId = "" then
    .error (.jsError "Missing foreign_id parameter!")
  else if time = "" then
    .error (.jsError "Missing time parameter!")
  else if newTargets.isNone && addedTargets.isNone && removedTargets.isNone then
    .error (.jsError "Requires you to provide at least one parameter for newTargets, addedTargets, or removedTargets")
  else if newTargets.isSome && (addedTargets.isSome || removedTargets.isSome) then
    .error (.jsError "Cannot include add_targets or removedTargets if you are also including newTargets")
  else if overlapCheck addedTargets removedTargets then
    .error (.jsError "Cannot have the same feed ID in addedTargets and removedTargets.")
  else
    .ok
      { url := "feed_targets/" ++ f.feedUrl ++ "/activity_to_targets/"
        signature := f.signature
        body :=
          { foreign_id := foreignId
            time := time
            new_targets := newTargets
            added_targets := addedTargets
            removed_targets := removedTargets } }

/-- `subscribe` (feed.ts lines 470-496): throws a `SiteError` when the
client has no app id; otherwise asks the faye client for a fresh
subscription handle on the feed's channel and records it (together with
the token and, as the source does, the channel name in the `userId` field)
in the shared `client.subscriptions` registry, overwriting any existing
entry for that key.  Returns the updated client state and the handle. -/
def subscribe (f : StreamFeed) (st : ClientState) :
    Except StreamError (ClientState × Nat) :=
  match f.appId with
  | none =>
      .error (.SiteError "Missing app id, which is needed to subscribe, use var client = stream.connect(key, secret, appId)")
  | some _ =>
      let handle := st.nextHandle
      let key := "/" ++ f.notificationChannel
      .ok
        ({ st with
            subscriptions := alistSet st.subscriptions key
              { token := f.token
                userId := f.notificationChannel
                fayeSubscription := handle }
            nextHandle := st.nextHandle + 1 },
         handle)

/-- `unsubscribe` (feed.ts lines 498-508): if the registry has an entry for
this feed's channel, delete it and cancel its faye subscription handle;
otherwise do nothing. -/
def unsubscribe (f : StreamFeed) (st : ClientState) : ClientState :=
  match alistGet st.subscriptions ("/" ++ f.notificationChannel) with
  | none => st
  | some e =>
      { st with
          subscriptions := alistDel st.subscriptions ("/" ++ f.notificationChannel)
          cancelled := e.fayeSubscription :: st.cancelled }

end StreamFeed

/-- A concrete feed used by the closed instance theorems: the object the
constructor builds for `client.feed("user", "1")` with token "tok" on a
client whose app id is "123". -/
def exampleFeed : StreamFeed :=
  { appId := some "123"
    slug := "user"
    userId := "1"
    id := "user:1"
    token := "tok"
    feedUrl := "user/1"
    feedTogether := "user1"
    signature := "user1 tok"
    notificationChannel := "site-123-feed-user1" }

/-- The same feed on a client with no app id configured (the channel name
then interpolates the string "undefined"). -/
def exampleFeedNoApp : StreamFeed :=
  { exampleFeed with
      appId := none
      notificationChannel := "site-undefined-feed-user1" }

/-- A client state holding one live subscription for `exampleFeed`. -/
def exampleState : ClientState :=
  { subscriptions :=
      [("/site-123-feed-user1",
        { token := "tok", userId := "site-123-feed-user1", fayeSubscription := 0 })]
    nextHandle := 1
    cancelled := [] }

theorem qget_append (a b : Query) (k : String) :
    qget (a ++ b) k = oor (qget a k) (qget b k) := by
  induction a with
  | nil => simp [qget, oor]
  | cons hd tl ih =>
    obtain ⟨hk, hv⟩ := hd
    by_cases h : hk = k <;> simp [qget, h, oor, ih]

theorem allowedIdChar_ne_colon {c : Char} (h : allowedIdChar c = true) :
    (c == ':') = false := by
  cases hc : c == ':' with
  | false => rfl
  | true =>
    have : c = ':' := eq_of_beq hc
    subst this
    exact absurd h (by decide)

theorem no_colon_of_allowed {l : List Char} (h : l.all allowedIdChar = true) :
    (l.any fun c => c == ':') = false := by
  induction l with
  | nil => rfl
  | cons c cs ih =>
    simp only [List.all_cons, Bool.and_eq_true] at h
    rw [List.any_cons, Bool.or_eq_false_iff]
    exact ⟨allowedIdChar_ne_colon h.1, ih h.2⟩

theorem jsReplaceOnce_no_colon_left (rep : List Char) :
    ∀ l r : List Char, (l.any fun c => c == ':') = false →
      jsReplaceOnce ':' rep (l ++ ':' :: r) = l ++ (rep ++ r) := by
  intro l
  induction l with
  | nil =>
    intro r _
    simp [jsReplaceOnce]
  | cons c cs ih =>
    intro r h
    rw [List.any_cons, Bool.or_eq_false_iff] at h
    have hc : ¬c = ':' := by
      intro hcc
      subst hcc
      simp at h
    simp only [List.cons_append, jsReplaceOnce, if_neg hc]
    exact congrArg (List.cons c) (ih r h.2)

theorem replaceFirst_sep (slug userId sep : String)
    (h : (slug.data.any fun c => c == ':') = false) :
    jsStringReplaceFirst (slug ++ ":" ++ userId) ':' sep = slug ++ sep ++ userId := by
  apply String.ext
  show jsReplaceOnce ':' sep.data (slug ++ ":" ++ userId).data = (slug ++ sep ++ userId).data
  rw [String.data_append, String.data_append]
  have hcolon : (":" : String).data = [':'] := rfl
  rw [hcolon, List.append_assoc, List.singleton_append,
    jsReplaceOnce_no_colon_left sep.data slug.data userId.data h,
    String.data_append, String.data_append, List.append_assoc]

theorem alistGet_filter_ne {α : Type} (l : List (String × α)) (k : String) :
    alistGet (l.filter fun p => p.1 != k) k = none := by
  induction l with
  | nil => rfl
  | cons hd tl ih =>
    obtain ⟨hk, hv⟩ := hd
    by_cases h : hk = k
    · subst h
      simp [List.filter_cons, ih]
    · simp [List.filter_cons, h, alistGet, ih]

theorem any_colon_iff (l : List Char) :
    ((l.any fun c => c == ':') = true) ↔ ':' ∈ l := by
  simp [List.any_eq_true]

/-- C1: for every valid (slug, userId, token) triple the constructor
succeeds and derives id = slug ++ ":" ++ userId, urlPath (feedUrl) =
slug ++ "/" ++ userId, joined (feedTogether) = slug ++ userId, signature =
joined ++ " " ++ token and notification channel name =
"site-" ++ appId ++ "-feed-" ++ joined.  The embedding is a pure function
of the inputs, so the derived values are deterministic, identical across
repeated construction with the same inputs, and immutable. -/
theorem construct_derived_identity (a slug userId token : String)
    (hs : validateFeedSlug slug = true) (hu : validateUserId userId = true)
    (ht : token ≠ "") :
    ∃ f : StreamFeed, StreamFeed.construct (some a) slug userId token = .ok f ∧
      f.id = slug ++ ":" ++ userId ∧
      f.feedUrl = slug ++ "/" ++ userId ∧
      f.feedTogether = slug ++ userId ∧
      f.signature = slug ++ userId ++ " " ++ token ∧
      f.notificationChannel = "site-" ++ a ++ "-feed-" ++ (slug ++ userId) := by
  have hs' := hs
  rw [validateFeedSlug, Bool.and_eq_true, decide_eq_true_iff] at hs'
  have hu' := hu
  rw [validateUserId, Bool.and_eq_true, decide_eq_true_iff] at hu'
  have hcol : (slug.data.any fun c => c == ':') = false := no_colon_of_allowed hs'.2
  have hfu : jsStringReplaceFirst (slug ++ ":" ++ userId) ':' "/" = slug ++ "/" ++ userId :=
    replaceFirst_sep slug userId "/" hcol
  have hft : jsStringReplaceFirst (slug ++ ":" ++ userId) ':' "" = slug ++ userId := by
    have h := replaceFirst_sep slug userId "" hcol
    rwa [String.append_empty] at h
  unfold StreamFeed.construct
  rw [if_neg (not_or.mpr ⟨hs'.1, hu'.1⟩), if_neg (by simp [hcol]),
    if_neg (by simp [hs]), if_neg (by simp [hu]), if_neg ht]
  refine ⟨_, rfl, rfl, hfu, hft, ?_, ?_⟩
  · show jsStringReplaceFirst (slug ++ ":" ++ userId) ':' "" ++ " " ++ token =
      slug ++ userId ++ " " ++ token
    rw [hft]
  · show "site-" ++ appIdString (some a) ++ "-feed-" ++
      jsStringReplaceFirst (slug ++ ":" ++ userId) ':' "" =
      "site-" ++ a ++ "-feed-" ++ (slug ++ userId)
    rw [hft]
    rfl

theorem construct_derived_identity_witness :
    ∃ f : StreamFeed, StreamFeed.construct (some "123") "user" "1" "tok" = .ok f ∧
      f.id = "user" ++ ":" ++ "1" ∧
      f.feedUrl = "user" ++ "/" ++ "1" ∧
      f.feedTogether = "user" ++ "1" ∧
      f.signature = "user" ++ "1" ++ " " ++ "tok" ∧
      f.notificationChannel = "site-" ++ "123" ++ "-feed-" ++ ("user" ++ "1") :=
  construct_derived_identity "123" "user" "1" "tok" (by decide) (by decide) (by decide)

/-- C4: constructing a feed fails (with a FeedError, the spec's
ValidationError) exactly when the slug is empty, the user id is empty, the
slug contains a colon, the token is empty or absent, or the slug/user id
fail the charset validation; the error constructor carries no identity or
signature fields, so none is produced on failure. -/
theorem construct_fails_iff (appId : Option String) (slug userId token : String) :
    exIsOk (StreamFeed.construct appId slug userId token) = false ↔
      slug = "" ∨ userId = "" ∨ ':' ∈ slug.data ∨
      validateFeedSlug slug = false ∨ validateUserId userId = false ∨ token = "" := by
  by_cases h1 : slug = "" ∨ userId = ""
  · simp only [StreamFeed.construct, if_pos h1, exIsOk]
    tauto
  · push_neg at h1
    by_cases h2 : (slug.data.any fun c => c == ':') = true
    · have hmem : ':' ∈ slug.data := (any_colon_iff slug.data).mp h2
      simp only [StreamFeed.construct, if_neg (not_or.mpr h1), if_pos h2, exIsOk]
      tauto
    · have hmem : ':' ∉ slug.data := fun hm => h2 ((any_colon_iff slug.data).mpr hm)
      cases h3 : validateFeedSlug slug with
      | false =>
        simp only [StreamFeed.construct, if_neg (not_or.mpr h1), if_neg h2, h3,
          Bool.not_false, if_pos rfl, exIsOk]
        tauto
      | true =>
        cases h4 : validateUserId userId with
        | false =>
          simp only [StreamFeed.construct, if_neg (not_or.mpr h1), if_neg h2, h3, h4,
            Bool.not_false, Bool.not_true, if_pos rfl, exIsOk]
          simp only [Bool.false_eq_true, if_false]
          tauto
        | true =>
          by_cases h5 : token = ""
          · simp only [StreamFeed.construct, if_neg (not_or.mpr h1), if_neg h2, h3, h4,
              Bool.not_true, if_pos h5, exIsOk]
            simp only [Bool.false_eq_true, if_false]
            tauto
          · simp only [StreamFeed.construct, if_neg (not_or.mpr h1), if_neg h2, h3, h4,
              Bool.not_true, if_neg h5, exIsOk]
            simp only [Bool.false_eq_true, if_false]
            constructor
            · intro hf
              exact absurd hf (by simp)
            · intro hf
              rcases hf with hf | hf | hf | hf | hf | hf
              · exact absurd hf h1.1
              · exact absurd hf h1.2
              · exact absurd hf hmem
              · exact absurd hf (by simp)
              · exact absurd hf (by simp)
              · exact absurd hf h5

theorem qget_markSeenOverride_mark_read (options : Query) :
    qget (markSeenOverride options) "mark_read" = none := by
  unfold markSeenOverride
  rcases qget options "mark_seen" with _ | v
  · rfl
  · rcases v <;> simp [qget]

theorem qget_markReadOverride_mark_seen (options : Query) :
    qget (markReadOverride options) "mark_seen" = none := by
  unfold markReadOverride
  rcases qget options "mark_read" with _ | v
  · rfl
  · rcases v <;> simp [qget]

theorem get_qs_lookup (f : StreamFeed) (options : Query) (k : String) :
    qget (StreamFeed.get f options).qs k =
      oor (qget (markOverrides options) k) (qget options k) := by
  simp only [StreamFeed.get, spread2, replaceReactionOptions]
  exact qget_append (markOverrides options) options k

/-- C2: in the query transmitted by `get`, an array-valued `mark_read` is
replaced by its comma-joined string (same for `mark_seen`), a `mark_read`
of `true` or of "current" passes through unchanged, and every key of the
transmitted query is looked up first in the two serialized marking
overrides and then in the raw options, i.e. the query is their shallow
union with override keys winning. -/
theorem get_query_spec (f : StreamFeed) (options : Query) :
    (∀ l, qget options "mark_read" = some (.strList l) →
      qget (StreamFeed.get f options).qs "mark_read" = some (.str (joinComma l))) ∧
    (∀ l, qget options "mark_seen" = some (.strList l) →
      qget (StreamFeed.get f options).qs "mark_seen" = some (.str (joinComma l))) ∧
    (qget options "mark_read" = some (.bool true) →
      qget (StreamFeed.get f options).qs "mark_read" = some (.bool true)) ∧
    (qget options "mark_read" = some (.str "current") →
      qget (StreamFeed.get f options).qs "mark_read" = some (.str "current")) ∧
    (∀ k, qget (StreamFeed.get f options).qs k =
      oor (qget (markOverrides options) k) (qget options k)) := by
  refine ⟨?_, ?_, ?_, ?_, get_qs_lookup f options⟩
  · intro l h
    rw [get_qs_lookup, markOverrides, qget_append, markReadOverride, h]
    simp [qget, oor]
  · intro l h
    rw [get_qs_lookup, markOverrides, qget_append, qget_markReadOverride_mark_seen,
      markSeenOverride, h]
    simp [qget, oor]
  · intro h
    rw [get_qs_lookup, markOverrides, qget_append, markReadOverride, h,
      qget_markSeenOverride_mark_read]
    simp [qget, oor, h]
  · intro h
    rw [get_qs_lookup, markOverrides, qget_append, markReadOverride, h,
      qget_markSeenOverride_mark_read]
    simp [qget, oor, h]

theorem get_query_spec_witness :
    qget (StreamFeed.get exampleFeed
        [("mark_read", .strList ["a", "b"]), ("limit", .num 10)]).qs "mark_read" =
      some (.str (joinComma ["a", "b"])) ∧
    qget (StreamFeed.get exampleFeed [("mark_read", .bool true)]).qs "mark_read" =
      some (.bool true) ∧
    qget (StreamFeed.get exampleFeed [("mark_read", .str "current")]).qs "mark_read" =
      some (.str "current") :=
  ⟨(get_query_spec exampleFeed [("mark_read", .strList ["a", "b"]), ("limit", .num 10)]).1
      ["a", "b"] rfl,
   (get_query_spec exampleFeed [("mark_read", .bool true)]).2.2.1 rfl,
   (get_query_spec exampleFeed [("mark_read", .str "current")]).2.2.2.1 rfl⟩

/-- C9: `getActivityDetail` returns exactly what `get` returns on the
options obtained by merging id_lte = id_gte = activityId and limit = 1 with
the caller's options (`specDetailOptions`, written from the spec's words,
with the caller's options winning on collision as the source's spread
does). -/
theorem getActivityDetail_refines_get (f : StreamFeed) (activityId : String)
    (options : Query) :
    StreamFeed.getActivityDetail f activityId options =
      StreamFeed.get f (StreamFeed.specDetailOptions activityId options) := rfl

/-- C5: `removeActivity` on a plain string id produces a DELETE descriptor
for feed/{urlPath}/{id}/ with no foreign_id flag, and on an object with a
(truthy) foreignId produces one for feed/{urlPath}/{foreignId}/ with query
foreign_id=1; the mode is selected solely by the shape of the argument. -/
theorem removeActivity_modes (f : StreamFeed) (s fid : String) (hfid : fid ≠ "") :
    (f.removeActivity (.id s) =
      { url := "feed/" ++ f.feedUrl ++ "/" ++ s ++ "/"
        qs := []
        signature := f.signature } ∧
      qget (f.removeActivity (.id s)).qs "foreign_id" = none) ∧
    f.removeActivity (.foreignId fid) =
      { url := "feed/" ++ f.feedUrl ++ "/" ++ fid ++ "/"
        qs := [("foreign_id", .str "1")]
        signature := f.signature } :=
  ⟨⟨rfl, rfl⟩, by simp [StreamFeed.removeActivity, hfid]⟩

theorem removeActivity_modes_witness :
    (exampleFeed.removeActivity (.id "abc") =
      { url := "feed/" ++ exampleFeed.feedUrl ++ "/" ++ "abc" ++ "/"
        qs := []
        signature := exampleFeed.signature } ∧
      qget (exampleFeed.removeActivity (.id "abc")).qs "foreign_id" = none) ∧
    exampleFeed.removeActivity (.foreignId "abc") =
      { url := "feed/" ++ exampleFeed.feedUrl ++ "/" ++ "abc" ++ "/"
        qs := [("foreign_id", .str "1")]
        signature := exampleFeed.signature } :=
  removeActivity_modes exampleFeed "abc" "abc" (by decide)

/-- C10: `removeActivity` selects foreign-id mode by the truthiness of the
`foreignId` field: for an argument object whose foreignId is the empty
string the query carries no foreign_id flag and the url segment is the
template-literal coercion of the whole argument object, "[object Object]",
rather than the empty foreignId; no error is raised. -/
theorem removeActivity_empty_foreignId (f : StreamFeed) :
    f.removeActivity (.foreignId "") =
      { url := "feed/" ++ f.feedUrl ++ "/" ++ "[object Object]" ++ "/"
        qs := []
        signature := f.signature } ∧
    qget (f.removeActivity (.foreignId "")).qs "foreign_id" = none := by
  constructor <;> simp [StreamFeed.removeActivity, qget]

theorem any_contains_iff (a r : List String) :
    ((a.any fun t => r.contains t) = true) ↔ ∃ x ∈ a, x ∈ r := by
  simp [List.any_eq_true, List.contains, List.elem_iff]

/-- C3: `updateActivityToTargets` fails locally (with a synchronously
thrown error, a ValidationError in the spec's taxonomy, and before any
request descriptor is produced) exactly when foreignId is missing, time is
missing, all three target lists are absent, newTargets is combined with
addedTargets or removedTargets, or addedTargets and removedTargets share an
element; otherwise it succeeds and the posted body carries foreign_id,
time, and each of the three lists exactly when it was supplied. -/
theorem updateActivityToTargets_spec (f : StreamFeed) (foreignId time : String)
    (newTargets addedTargets removedTargets : Option (List String)) :
    (exIsOk (f.updateActivityToTargets foreignId time newTargets addedTargets removedTargets) = false ↔
      foreignId = "" ∨ time = "" ∨
      (newTargets = none ∧ addedTargets = none ∧ removedTargets = none) ∨
      (newTargets ≠ none ∧ (addedTargets ≠ none ∨ removedTargets ≠ none)) ∨
      (∃ a r, addedTargets = some a ∧ removedTargets = some r ∧ ∃ x ∈ a, x ∈ r)) ∧
    (∀ e, f.updateActivityToTargets foreignId time newTargets addedTargets removedTargets =
        .error e → e.isValidationError = true) ∧
    (exIsOk (f.updateActivityToTargets foreignId time newTargets addedTargets removedTargets) = true →
      f.updateActivityToTargets foreignId time newTargets addedTargets removedTargets = .ok
        { url := "feed_targets/" ++ f.feedUrl ++ "/activity_to_targets/"
          signature := f.signature
          body := { foreign_id := foreignId, time := time, new_targets := newTargets,
                    added_targets := addedTargets, removed_targets := removedTargets } }) := by
  by_cases h1 : foreignId = ""
  · have hred : f.updateActivityToTargets foreignId time newTargets addedTargets removedTargets =
        .error (.jsError "Missing foreign_id parameter!") := by
      unfold StreamFeed.updateActivityToTargets
      rw [if_pos h1]
    rw [hred]
    refine ⟨by simp [exIsOk]; tauto, ?_, ?_⟩
    · intro e he
      cases he
      rfl
    · intro h
      simp [exIsOk] at h
  · by_cases h2 : time = ""
    · have hred : f.updateActivityToTargets foreignId time newTargets addedTargets removedTargets =
          .error (.jsError "Missing time parameter!") := by
        unfold StreamFeed.updateActivityToTargets
        rw [if_neg h1, if_pos h2]
      rw [hred]
      refine ⟨by simp [exIsOk]; tauto, ?_, ?_⟩
      · intro e he
        cases he
        rfl
      · intro h
        simp [exIsOk] at h
    · by_cases h3 : (newTargets.isNone && addedTargets.isNone && removedTargets.isNone) = true
      · have h3' : newTargets = none ∧ addedTargets = none ∧ removedTargets = none := by
          simpa [Bool.and_eq_true, Option.isNone_iff_eq_none, and_assoc] using h3
        have hred : f.updateActivityToTargets foreignId time newTargets addedTargets removedTargets =
            .error (.jsError "Requires you to provide at least one parameter for newTargets, addedTargets, or removedTargets") := by
          unfold StreamFeed.updateActivityToTargets
          rw [if_neg h1, if_neg h2, if_pos h3]
        rw [hred]
        refine ⟨by simp [exIsOk]; tauto, ?_, ?_⟩
        · intro e he
          cases he
          rfl
        · intro h
          simp [exIsOk] at h
      · by_cases h4 : (newTargets.isSome && (addedTargets.isSome || removedTargets.isSome)) = true
        · have h4' : newTargets ≠ none ∧ (addedTargets ≠ none ∨ removedTargets ≠ none) := by
            simpa [Bool.and_eq_true, Bool.or_eq_true, Option.isSome_iff_ne_none] using h4
          have hred : f.updateActivityToTargets foreignId time newTargets addedTargets removedTargets =
              .error (.jsError "Cannot include add_targets or removedTargets if you are also including newTargets") := by
            unfold StreamFeed.updateActivityToTargets
            rw [if_neg h1, if_neg h2, if_neg h3, if_pos h4]
          rw [hred]
          refine ⟨by simp [exIsOk]; tauto, ?_, ?_⟩
          · intro e he
            cases he
            rfl
          · intro h
            simp [exIsOk] at h
        · by_cases h5 : StreamFeed.overlapCheck addedTargets removedTargets = true
          · have hred : f.updateActivityToTargets foreignId time newTargets addedTargets removedTargets =
                .error (.jsError "Cannot have the same feed ID in addedTargets and removedTargets.") := by
              unfold StreamFeed.updateActivityToTargets
              rw [if_neg h1, if_neg h2, if_neg h3, if_neg h4, if_pos h5]
            have hover : ∃ a r, addedTargets = some a ∧ removedTargets = some r ∧
                ∃ x ∈ a, x ∈ r := by
              rcases addedTargets with _ | a
              · exact absurd h5 (by simp [StreamFeed.overlapCheck])
              · rcases removedTargets with _ | r
                · exact absurd h5 (by simp [StreamFeed.overlapCheck])
                · obtain ⟨x, hxa, hxr⟩ := (any_contains_iff a r).mp
                    (by simpa [StreamFeed.overlapCheck] using h5)
                  exact ⟨a, r, rfl, rfl, x, hxa, hxr⟩
            rw [hred]
            refine ⟨by simp [exIsOk]; tauto, ?_, ?_⟩
            · intro e he
              cases he
              rfl
            · intro h
              simp [exIsOk] at h
          · have hred : f.updateActivityToTargets foreignId time newTargets addedTargets removedTargets =
                .ok { url := "feed_targets/" ++ f.feedUrl ++ "/activity_to_targets/"
                      signature := f.signature
                      body := { foreign_id := foreignId, time := time,
                                new_targets := newTargets,
                                added_targets := addedTargets,
                                removed_targets := removedTargets } } := by
              unfold StreamFeed.updateActivityToTargets
              rw [if_neg h1, if_neg h2, if_neg h3, if_neg h4, if_neg h5]
            rw [hred]
            refine ⟨?_, ?_, fun _ => rfl⟩
            · simp only [exIsOk]
              constructor
              · intro hx
                exact absurd hx (by simp)
              · rintro (hf | hf | ⟨hnt, hat, hrt⟩ | ⟨hnt, hor⟩ |
                  ⟨a, r, ha, hr, x, hxa, hxr⟩)
                · exact absurd hf h1
                · exact absurd hf h2
                · exact absurd (show (newTargets.isNone && addedTargets.isNone &&
                    removedTargets.isNone) = true by simp [hnt, hat, hrt]) h3
                · exact absurd (show (newTargets.isSome &&
                      (addedTargets.isSome || removedTargets.isSome)) = true by
                    rw [Bool.and_eq_true, Bool.or_eq_true]
                    simp only [Option.isSome_iff_ne_none]
                    exact ⟨hnt, hor⟩) h4
                · subst ha
                  subst hr
                  exact absurd (show StreamFeed.overlapCheck (some a) (some r) = true by
                    simp only [StreamFeed.overlapCheck]
                    rw [any_contains_iff]
                    exact ⟨x, hxa, hxr⟩) h5
            · intro e he
              simp at he

theorem updateActivityToTargets_spec_witness :
    exampleFeed.updateActivityToTargets "fid" "t" none (some ["x"]) (some ["y"]) = .ok
      { url := "feed_targets/" ++ exampleFeed.feedUrl ++ "/activity_to_targets/"
        signature := exampleFeed.signature
        body := { foreign_id := "fid", time := "t", new_targets := none,
                  added_targets := some ["x"], removed_targets := some ["y"] } } ∧
    StreamError.isValidationError (.jsError "Missing foreign_id parameter!") = true :=
  ⟨(updateActivityToTargets_spec exampleFeed "fid" "t" none (some ["x"]) (some ["y"])).2.2
      (by decide),
   (updateActivityToTargets_spec exampleFeed "" "t" none none none).2.1
      (.jsError "Missing foreign_id parameter!") rfl⟩

/-- C8: `follow` validates the target slug and the target user id (first
extracting the id field of a StreamUser argument) and fails locally, with a
ValidationError and before producing any request descriptor, exactly when
that validation fails; on success the posted body is target =
targetSlug ++ ":" ++ targetUserId with activity_copy_limit equal to
options.limit exactly when a numeric limit was supplied and absent
otherwise. -/
theorem follow_spec (f : StreamFeed) (targetSlug : String) (targetUserId : TargetUserRef)
    (limit : Option Int) :
    (exIsOk (f.follow targetSlug targetUserId limit) =
      (validateFeedSlug targetSlug && validateUserId (resolveTargetUserId targetUserId))) ∧
    (∀ e, f.follow targetSlug targetUserId limit = .error e →
      e.isValidationError = true) ∧
    ((validateFeedSlug targetSlug && validateUserId (resolveTargetUserId targetUserId)) = true →
      f.follow targetSlug targetUserId limit = .ok
        { url := "feed/" ++ f.feedUrl ++ "/following/"
          body := { target := targetSlug ++ ":" ++ resolveTargetUserId targetUserId
                    activity_copy_limit := limit }
          signature := f.signature }) := by
  cases h1 : validateFeedSlug targetSlug with
  | false =>
    have hred : f.follow targetSlug targetUserId limit =
        .error (.FeedError "Invalid feed slug") := by
      simp [StreamFeed.follow, h1]
    rw [hred]
    refine ⟨by simp [exIsOk, h1], ?_, ?_⟩
    · intro e he
      cases he
      rfl
    · intro hc
      simp at hc
  | true =>
    cases h2 : validateUserId (resolveTargetUserId targetUserId) with
    | false =>
      have hred : f.follow targetSlug targetUserId limit =
          .error (.FeedError "Invalid user id") := by
        simp [StreamFeed.follow, h1, h2]
      rw [hred]
      refine ⟨by simp [exIsOk, h1, h2], ?_, ?_⟩
      · intro e he
        cases he
        rfl
      · intro hc
        simp at hc
    | true =>
      have hred : f.follow targetSlug targetUserId limit = .ok
          { url := "feed/" ++ f.feedUrl ++ "/following/"
            body := { target := targetSlug ++ ":" ++ resolveTargetUserId targetUserId
                      activity_copy_limit := limit }
            signature := f.signature } := by
        simp [StreamFeed.follow, h1, h2]
      rw [hred]
      exact ⟨by simp [exIsOk, h1, h2], fun e he => by simp at he, fun _ => rfl⟩

theorem follow_spec_witness :
    exampleFeed.follow "user" (.plain "2") (some 5) = .ok
      { url := "feed/" ++ exampleFeed.feedUrl ++ "/following/"
        body := { target := "user" ++ ":" ++ resolveTargetUserId (.plain "2")
                  activity_copy_limit := some 5 }
        signature := exampleFeed.signature } :=
  (follow_spec exampleFeed "user" (.plain "2") (some 5)).2.2 (by decide)

/-- C7: `subscribe` on a client with no configured app id fails with a
SiteError (the spec's ConfigError) and returns no updated state, so no
channel subscription is opened and no registry entry is written;
`unsubscribe` on a feed whose channel has no registry entry returns the
state unchanged (a no-op that cannot throw), and when an entry exists
`unsubscribe` removes it from the registry and cancels its subscription
handle. -/
theorem subscribe_unsubscribe_spec (f : StreamFeed) (st : ClientState) :
    (f.appId = none →
      f.subscribe st = .error (.SiteError "Missing app id, which is needed to subscribe, use var client = stream.connect(key, secret, appId)")) ∧
    (alistGet st.subscriptions ("/" ++ f.notificationChannel) = none →
      f.unsubscribe st = st) ∧
    (∀ e, alistGet st.subscriptions ("/" ++ f.notificationChannel) = some e →
      alistGet (f.unsubscribe st).subscriptions ("/" ++ f.notificationChannel) = none ∧
      e.fayeSubscription ∈ (f.unsubscribe st).cancelled) := by
  refine ⟨?_, ?_, ?_⟩
  · intro h
    simp [StreamFeed.subscribe, h]
  · intro h
    simp [StreamFeed.unsubscribe, h]
  · intro e h
    simp only [StreamFeed.unsubscribe, h, alistDel]
    exact ⟨alistGet_filter_ne _ _, List.mem_cons_self _ _⟩

theorem subscribe_unsubscribe_spec_witness :
    StreamFeed.subscribe exampleFeedNoApp
        { subscriptions := [], nextHandle := 0, cancelled := [] } =
      .error (.SiteError "Missing app id, which is needed to subscribe, use var client = stream.connect(key, secret, appId)") ∧
    StreamFeed.unsubscribe exampleFeed
        { subscriptions := [], nextHandle := 0, cancelled := [] } =
      { subscriptions := [], nextHandle := 0, cancelled := [] } ∧
    (alistGet (StreamFeed.unsubscribe exampleFeed exampleState).subscriptions
        ("/" ++ exampleFeed.notificationChannel) = none ∧
      ({ token := "tok", userId := "site-123-feed-user1", fayeSubscription := 0 } :
          SubscriptionEntry).fayeSubscription ∈
        (StreamFeed.unsubscribe exampleFeed exampleState).cancelled) :=
  ⟨(subscribe_unsubscribe_spec exampleFeedNoApp
      { subscriptions := [], nextHandle := 0, cancelled := [] }).1 rfl,
   (subscribe_unsubscribe_spec exampleFeed
      { subscriptions := [], nextHandle := 0, cancelled := [] }).2.1 rfl,
   (subscribe_unsubscribe_spec exampleFeed exampleState).2.2
      { token := "tok", userId := "site-123-feed-user1", fayeSubscription := 0 } rfl⟩

/-- C6 (failing-input evaluation): two consecutive `subscribe` calls on the
same feed with no intervening `unsubscribe`.  The second call is not
rejected; it overwrites the registry entry for the channel with the new
handle 1 while the cancelled list stays empty, so the first handle 0 is
neither stored anywhere nor cancelled - it leaks, contradicting the
requirement that a double subscribe be rejected or cancel-then-replace. -/
theorem second_subscribe_leaks :
    StreamFeed.subscribe exampleFeed
        { subscriptions := [], nextHandle := 0, cancelled := [] } =
      .ok ({ subscriptions :=
               [("/site-123-feed-user1",
                 { token := "tok", userId := "site-123-feed-user1",
                   fayeSubscription := 0 })]
             nextHandle := 1
             cancelled := [] }, 0) ∧
    StreamFeed.subscribe exampleFeed
        { subscriptions :=
            [("/site-123-feed-user1",
              { token := "tok", userId := "site-123-feed-user1",
                fayeSubscription := 0 })]
          nextHandle := 1
          cancelled := [] } =
      .ok ({ subscriptions :=
               [("/site-123-feed-user1",
                 { token := "tok", userId := "site-123-feed-user1",
                   fayeSubscription := 1 })]
             nextHandle := 2
             cancelled := [] }, 1) :=
  ⟨rfl, rfl⟩
